import Mathlib

/-!
Verification of the request-orchestration pipeline of the canary ASR HTTP
service.  The definitions below are a shallow embedding of the Python source:

* `src/canary_api/endpoints/transcriptions_endpoint.py` — validation,
  timestamp policy, beam reconfiguration, chunked inference loop, timestamp
  offset reconciliation, output dispatch, endpoint serialization;
* `src/canary_api/services/canary_service.py` — the service wrapper around the
  external inference capability.

The inference capability, audio canonicalization and physical splitting are
external collaborators; they are modelled as oracle data carried by an
environment record (`Env`): the list of chunk descriptors that the splitter
would return, and the per-chunk result (or failure) that the capability would
produce.  Durations and timestamps are modelled over `ℚ`.
-/

/-- The list `SUPPORTED_LANGUAGES` from transcriptions_endpoint.py line 28. -/
def SUPPORTED_LANGUAGES : List String := ["en", "de", "fr", "es"]

/-- The effective timestamps flag computed in `process_asr_request`
(transcriptions_endpoint.py lines 65-77).  The Python variable
`timestamps_flag` is either `True` or `None`; we model it as `Bool`
(`false` = `None`).  The request field `timestamps` may be a string or
`None`, modelled as `Option String`; every value other than the literal
`'yes'` (including `'no'`, `None`, and unknown strings, which the code logs
and defaults) yields `None`/`false`. -/
def timestampsFlag (response_format : String) (timestamps : Option String) : Bool :=
  if response_format = "text" then
    false
  else
    let ts := if response_format = "srt" || response_format = "vtt" then some "yes"
              else timestamps
    if ts = some "yes" then true else false

/-- A word- or segment-level timed token: the dicts
`{'word': ..., 'start': ..., 'end': ...}` produced by the capability.
`stop` embeds the Python key `'end'` (a Lean keyword). -/
structure TimedToken where
  text : String
  start : ℚ
  stop : ℚ
deriving DecidableEq, Repr

/-- The `timestamp` attribute of a capability result: a dict that may hold a
`'word'` and/or a `'segment'` list (the code probes membership with
`'word' in results[0].timestamp`). -/
structure TsDict where
  word : Option (List TimedToken)
  segment : Option (List TimedToken)
deriving DecidableEq, Repr

/-- One raw result record returned by the inference capability for one audio
input.  `timestamp = none` models the attribute being absent or falsy (the
code guards with `hasattr(results[0], 'timestamp') and results[0].timestamp`). -/
structure ChunkResult where
  text : String
  timestamp : Option TsDict
deriving DecidableEq, Repr

/-- A chunk descriptor as the orchestrator sees it: the scratch file path
returned by `split_audio_into_chunks`, the capability's outcome for that path
(`none` = the `transcriber.transcribe` call raises), and the duration measured
from the chunk's WAV header (lines 126-129). -/
structure ChunkData where
  path : String
  outcome : Option ChunkResult
  duration : ℚ
deriving DecidableEq, Repr

/-- Adding the running `offset` to a token's `start` and `end` fields
(transcriptions_endpoint.py lines 136-138 and 142-144). -/
def shiftToken (offset : ℚ) (t : TimedToken) : TimedToken :=
  { t with start := t.start + offset, stop := t.stop + offset }

/-- The word tokens the orchestrator reads out of one capability result under
the active timestamps flag: present only when the flag is set, the
`timestamp` attribute is truthy and it holds a `'word'` key
(lines 134-139 and 165-166). -/
def resultWords (tsFlag : Bool) (r : ChunkResult) : List TimedToken :=
  if tsFlag then
    match r.timestamp with
    | some td =>
      match td.word with
      | some ws => ws
      | none => []
    | none => []
  else []

/-- Same as `resultWords` for the `'segment'` key (lines 141-145 and 167). -/
def resultSegments (tsFlag : Bool) (r : ChunkResult) : List TimedToken :=
  if tsFlag then
    match r.timestamp with
    | some td =>
      match td.segment with
      | some ss => ss
      | none => []
    | none => []
  else []

/-- The mutable state threaded through the per-chunk loop of
`process_asr_request` (lines 101-150): `texts`, `timestamps_all['word']`,
`timestamps_all['segment']`, `all_results`, the running `offset`, plus
bookkeeping of the inference invocations made so far and the chunk scratch
files removed so far. -/
structure LoopAcc where
  texts : List String
  words : List TimedToken
  segments : List TimedToken
  allResults : List ChunkResult
  offset : ℚ
  invocations : Nat
  removed : List String
deriving DecidableEq

/-- The initial state: `texts = []`, empty word and segment timelines,
`all_results = []`, `offset = 0.0` (lines 101-103 and 111). -/
def initAcc : LoopAcc := ⟨[], [], [], [], 0, 0, []⟩

/-- The chunked-inference loop (lines 113-150).  Each iteration invokes the
capability once on the chunk's path; a raised exception propagates and stops
the loop, so the failing chunk's scratch file and the files of all later
chunks are never removed.  On success the chunk's text is appended, its
tokens are appended shifted by the current offset, the offset advances by
the chunk duration measured from its WAV header, and only then is the
chunk's file removed.  The loop body never extends `all_results`
(the variable is only written in the unchunked branch, line 162).
Returns the final state and whether all chunks succeeded. -/
def chunkLoop (tsFlag : Bool) : LoopAcc → List ChunkData → LoopAcc × Bool
  | acc, [] => (acc, true)
  | acc, c :: rest =>
    match c.outcome with
    | none => ({ acc with invocations := acc.invocations + 1 }, false)
    | some r =>
      chunkLoop tsFlag
        { texts := acc.texts ++ [r.text]
          words := acc.words ++ (resultWords tsFlag r).map (shiftToken acc.offset)
          segments := acc.segments ++ (resultSegments tsFlag r).map (shiftToken acc.offset)
          allResults := acc.allResults
          offset := acc.offset + c.duration
          invocations := acc.invocations + 1
          removed := acc.removed ++ [c.path] } rest

/-- Modelled from the spec: `clean_transcription`
(src/canary_api/utils/clean_transcription.py is not among the reviewed
sources).  Spec section 4.7, `text` format: "the merged text,
whitespace-normalized (collapse runs of whitespace, trim ends)". -/
def clean_transcription (s : String) : String :=
  " ".intercalate ((s.split Char.isWhitespace).filter (fun w => w ≠ ""))

/-- Two-digit zero padding for SRT time fields. -/
def pad2 (n : Nat) : String :=
  if n < 10 then "0" ++ toString n else toString n

/-- Three-digit zero padding for SRT millisecond fields. -/
def pad3 (n : Nat) : String :=
  if n < 10 then "00" ++ toString n
  else if n < 100 then "0" ++ toString n
  else toString n

/-- A nonnegative time in seconds converted to whole milliseconds,
truncating. -/
def msOf (t : ℚ) : Nat := (t.num * 1000 / (t.den : Int)).toNat

/-- An SRT timestamp `HH:MM:SS,mmm` for a time given in seconds; the comma is
SRT's decimal separator. -/
def srtTime (t : ℚ) : String :=
  let ms : Nat := msOf t
  pad2 (ms / 3600000) ++ ":" ++ pad2 (ms / 60000 % 60) ++ ":" ++
    pad2 (ms / 1000 % 60) ++ "," ++ pad3 (ms % 1000)

/-- One numbered SRT cue for one word token: cue index, time range, the word
text verbatim, and a blank separator line. -/
def srtCue (idx : Nat) (w : TimedToken) : String :=
  toString idx ++ "\n" ++ srtTime w.start ++ " --> " ++ srtTime w.stop ++ "\n"
    ++ w.text ++ "\n\n"

/-- Sequentially numbered cues starting at `idx`. -/
def srtCues : Nat → List TimedToken → String
  | _, [] => ""
  | idx, w :: ws => srtCue idx w ++ srtCues (idx + 1) ws

/-- Modelled from the spec: `generate_srt_from_words`
(src/canary_api/utils/generate_srt_from_words.py is not among the reviewed
sources).  Spec section 4.7, `srt`: "sequential numbered subtitle cues" over
the word timeline; the deterministic segmentation chosen here is the spec's
own example, one cue per word.  Cue text carries the word text verbatim and
cue times use SRT's comma decimal separator. -/
def generate_srt_from_words (words : List TimedToken) : String :=
  srtCues 1 words

/-- The expression `srt_data.replace(",", ".")` of line 190.  For the one-character pattern
`","` Python's `str.replace` substitutes every occurrence, i.e. it maps the
comma character to a period across the whole payload. -/
def pyReplaceCommaDot (s : String) : String :=
  String.mk (s.data.map (fun c => if c = ',' then '.' else c))

/-- A VTT timestamp as the claim reads it: the SRT decimal-separator comma
replaced by a period, inside the timestamp only. -/
def vttTime (t : ℚ) : String :=
  let ms : Nat := msOf t
  pad2 (ms / 3600000) ++ ":" ++ pad2 (ms / 60000 % 60) ++ ":" ++
    pad2 (ms / 1000 % 60) ++ "." ++ pad3 (ms % 1000)

/-- Cues with period decimal separators in the timestamps but cue text kept
verbatim — the rendering claim C9 describes. -/
def vttCuesSpec : Nat → List TimedToken → String
  | _, [] => ""
  | idx, w :: ws =>
    toString idx ++ "\n" ++ vttTime w.start ++ " --> " ++ vttTime w.stop ++ "\n"
      ++ w.text ++ "\n\n" ++ vttCuesSpec (idx + 1) ws

/-- The VTT payload claim C9 describes: the `WEBVTT` header, a blank line,
and the SRT cues with commas replaced by periods only where they serve as
decimal separators inside timestamps, and nowhere else. -/
def vttSpecRender (words : List TimedToken) : String :=
  "WEBVTT\n\n" ++ vttCuesSpec 1 words

/-- The Python value returned by `process_asr_request` (lines 171-191): a
`str` for the `text`, `srt` and `vtt` formats, the dict
`{"text": ..., "timestamps": ...}` for `json`, a list of raw result records
for `verbose_json`, and `None` when `response_format` matches no branch. -/
inductive RetVal where
  | pyStr : String → RetVal
  | jsonDict : String → Option (List TimedToken × List TimedToken) → RetVal
  | verboseList : List ChunkResult → RetVal
  | pyNone : RetVal
deriving DecidableEq

/-- A failure escaping `process_asr_request`: an `HTTPException(status,
detail)` raised by the orchestrator itself, or an exception propagated from
an inference-capability call. -/
inductive PErr where
  | http : Nat → String → PErr
  | capability : PErr
deriving DecidableEq

/-- The output dispatch of `process_asr_request` (lines 169-191) applied to
the collected loop state: `full_text = " ".join(texts)`, then the
`response_format` if/elif chain.  An unrecognized format matches no branch
and the function falls through, returning `None`. -/
def formatOutput (response_format : String) (tsFlag : Bool) (acc : LoopAcc) :
    Except PErr RetVal :=
  let full_text := " ".intercalate acc.texts
  if response_format = "text" then
    .ok (.pyStr (clean_transcription full_text))
  else if response_format = "json" then
    .ok (.jsonDict full_text (if tsFlag then some (acc.words, acc.segments) else none))
  else if response_format = "verbose_json" then
    .ok (.verboseList acc.allResults)
  else if response_format = "srt" ∨ response_format = "vtt" then
    if tsFlag = false ∨ acc.words = [] then
      .error (.http 400 "Timestamps are required for SRT/VTT output. Set timestamps=yes.")
    else
      let srt_data := generate_srt_from_words acc.words
      if response_format = "srt" then .ok (.pyStr srt_data)
      else .ok (.pyStr ("WEBVTT\n\n" ++ pyReplaceCommaDot srt_data))
  else
    .ok .pyNone

/-- The request parameters of `process_asr_request` (lines 46-54).
`timestamps` is the raw form value (`none` models Python `None`);
`word_boosting` is the parsed word-boost list, or `none`. -/
structure AsrParams where
  language : String
  pnc : String
  timestamps : Option String
  beam_size : Int
  batch_size : Int
  response_format : String
  word_boosting : Option (List String)
deriving DecidableEq

/-- The environment of one request: the configured settings
(`settings.beam_size`, `settings.max_chunk_duration_sec`), the loaded
model's flash property, the audio's RIFF-signature validity (line 61) and
the duration measured from its WAV header (lines 96-99), plus the oracle
data of the external collaborators — the chunk descriptors
`split_audio_into_chunks` would return and the capability outcome for the
unsplit asset. -/
structure Env where
  settingsBeamSize : Int
  maxChunkDurationSec : ℚ
  isFlashModel : Bool
  riffOk : Bool
  duration : ℚ
  chunks : List ChunkData
  wholeOutcome : Option ChunkResult
  audioPath : String
deriving DecidableEq

deriving instance DecidableEq for Except

/-- Everything observable about one `process_asr_request` run: the returned
value or escaping exception, the number of capability invocations made, the
chunk scratch files removed, whether the `finally` block removed the
top-level temp audio file, and whether line 85's test triggered a decoding
reconfiguration. -/
structure ProcResult where
  ret : Except PErr RetVal
  invocations : Nat
  removedChunks : List String
  audioRemoved : Bool
  reconfigured : Bool
deriving DecidableEq

/-- Shallow embedding of `process_asr_request`
(transcriptions_endpoint.py lines 46-193), in source order: language check,
RIFF check, timestamp policy, temp-file save (entering the `try`/`finally`
that always removes the top-level audio file), beam-reconfiguration test
against the static `settings.beam_size`, flash-model gate for timestamps,
the duration-based branch between the chunked loop and the single unsplit
invocation, then the output dispatch. -/
def process_asr_request (env : Env) (p : AsrParams) : ProcResult :=
  if p.language ∉ SUPPORTED_LANGUAGES then
    ⟨.error (.http 400 ("Unsupported language " ++ p.language)), 0, [], false, false⟩
  else if env.riffOk = false then
    ⟨.error (.http 400 "Invalid audio format (must be WAV)"), 0, [], false, false⟩
  else
    let tsFlag := timestampsFlag p.response_format p.timestamps
    let reconf := p.beam_size ≠ env.settingsBeamSize
    if tsFlag = true ∧ env.isFlashModel = false then
      ⟨.error (.http 400 "Timestamps are only supported with flash models (e.g., canary-1b-flash)"),
        0, [], true, reconf⟩
    else if env.duration > env.maxChunkDurationSec then
      let r := chunkLoop tsFlag initAcc env.chunks
      if r.2 then
        ⟨formatOutput p.response_format tsFlag r.1, r.1.invocations, r.1.removed, true, reconf⟩
      else
        ⟨.error .capability, r.1.invocations, r.1.removed, true, reconf⟩
    else
      match env.wholeOutcome with
      | none => ⟨.error .capability, 1, [], true, reconf⟩
      | some r =>
        ⟨formatOutput p.response_format tsFlag
            ⟨[r.text], resultWords tsFlag r, resultSegments tsFlag r, [r], 0, 1, []⟩,
          1, [], true, reconf⟩

/-- The beam-size handling of one request seen as a transition on the
model's currently active decoding beam size (the value last installed by
`change_decoding_strategy`; `CanaryService.__init__` lines 44-47 installs
`settings.beam_size` at service start).  Lines 84-88 compare the request's
`beam_size` against the static `settings.beam_size` — not against the
active value — and never write `settings.beam_size`.  Returns the new
active beam size and whether a reconfiguration was performed. -/
def serveBeam (settingsBeam active req : Int) : Int × Bool :=
  if req ≠ settingsBeam then (req, true) else (active, false)

/-- The spec's `ensure(beamSize)` contract (DecodingConfigManager, spec
section 4.2): reconfigure exactly when the currently active beam size
differs from the request's, then record the new active value. -/
def specEnsure (active req : Int) : Int × Bool :=
  if req ≠ active then (req, true) else (active, false)

/-- The HTTP response body produced by `asr_endpoint` (lines 233-237): a
`text/plain` body when the result is a Python `str`, otherwise
`JSONResponse(content=result)` — which serializes a `None` result as the
JSON `null` body. -/
inductive AsrResponse where
  | plainText : String → AsrResponse
  | jsonOf : RetVal → AsrResponse
deriving DecidableEq

/-- How `asr_endpoint` handles the outcome of `process_asr_request`
(lines 222-247): an `HTTPException` re-raises unchanged, any other exception
becomes a 500, a `str` result becomes a plain-text response, and every other
value (dict, list, or `None`) is wrapped in a `JSONResponse`. -/
def asrEndpointResult (r : Except PErr RetVal) : Except PErr AsrResponse :=
  match r with
  | .error (.http c m) => .error (.http c m)
  | .error .capability => .error (.http 500 "Internal server error")
  | .ok (.pyStr s) => .ok (.plainText s)
  | .ok v => .ok (.jsonOf v)

/-- The parameter names `CanaryService.transcribe` accepts
(canary_service.py lines 49-57); the signature has no `word_boosting`
parameter and no `**kwargs`. -/
def canaryTranscribeParams : List String :=
  ["audio_input", "batch_size", "pnc", "timestamps", "source_lang", "target_lang"]

/-- The keyword-argument names `process_asr_request` passes at both call
sites of `transcriber.transcribe` (transcriptions_endpoint.py lines 115-123
and 153-161). -/
def endpointTranscribeKwargs : List String :=
  ["audio_input", "batch_size", "pnc", "timestamps", "source_lang", "target_lang",
    "word_boosting"]

/-- A Python call with keyword arguments binds without `TypeError` exactly
when every keyword name matches a parameter of the callee. -/
def kwargsAccepted (params args : List String) : Bool :=
  args.all (fun a => params.contains a)

/-- The word tokens chunk `c` contributes before shifting. -/
def chunkWords (tsFlag : Bool) (c : ChunkData) : List TimedToken :=
  match c.outcome with
  | some r => resultWords tsFlag r
  | none => []

/-- The segment tokens chunk `c` contributes before shifting. -/
def chunkSegments (tsFlag : Bool) (c : ChunkData) : List TimedToken :=
  match c.outcome with
  | some r => resultSegments tsFlag r
  | none => []

/-- The texts collected over a fully successful chunk list, in order. -/
def chunkText (c : ChunkData) : String :=
  match c.outcome with
  | some r => r.text
  | none => ""

/-- The global timeline over a chunk list starting from offset `off`, for a
token extractor `f` (word or segment tokens): chunk by chunk, the chunk's
tokens in order shifted by the running offset, which then advances by the
chunk's measured duration. -/
def tokensFrom (f : ChunkData → List TimedToken) : ℚ → List ChunkData → List TimedToken
  | _, [] => []
  | off, c :: rest =>
    (f c).map (shiftToken off) ++ tokensFrom f (off + c.duration) rest

/-- The total measured duration of a chunk list. -/
def durSum (chunks : List ChunkData) : ℚ := (chunks.map ChunkData.duration).sum

/-- The cumulative offset of chunk `i`: the sum of the measured durations of
chunks `0..i-1` — the quantity the spec writes
`offset(chunk_i) = sum(duration(chunk_0..i-1))`. -/
def offsetAt (chunks : List ChunkData) (i : Nat) : ℚ :=
  ((chunks.take i).map ChunkData.duration).sum

/-- A default chunk descriptor, used only to totalize positional lookup; it
contributes no tokens. -/
def dfltChunk : ChunkData := ⟨"", none, 0⟩

/-- Chunk `i`'s contribution to the global timeline as claim C3 states it:
its tokens, in order, each shifted by exactly the sum of the durations of
chunks `0..i-1`. -/
def indexedShifted (f : ChunkData → List TimedToken) (chunks : List ChunkData) (i : Nat) :
    List TimedToken :=
  (f (chunks.getD i dfltChunk)).map (shiftToken (offsetAt chunks i))

/-- The claim's global timeline: the concatenation, in chunk order, of every
chunk's shifted contribution. -/
def claimGlobal (f : ChunkData → List TimedToken) (chunks : List ChunkData) : List TimedToken :=
  ((List.range chunks.length).map (indexedShifted f chunks)).flatten


/-- A concrete two-chunk environment: 40 s of audio against a 20 s chunk
threshold, both chunk invocations succeeding, word tokens inside their
chunks' bounds. -/
def envChunked : Env :=
  { settingsBeamSize := 1
    maxChunkDurationSec := 20
    isFlashModel := true
    riffOk := true
    duration := 40
    chunks := [⟨"c0", some ⟨"hello", some ⟨some [⟨"hello", 0, 1⟩], some [⟨"hello", 0, 1⟩]⟩⟩, 20⟩,
               ⟨"c1", some ⟨"world", some ⟨some [⟨"world", 1, 2⟩], none⟩⟩, 20⟩]
    wholeOutcome := some ⟨"one", none⟩
    audioPath := "audio.wav" }

/-- A concrete environment whose second chunk invocation fails. -/
def envFail : Env :=
  { envChunked with
      chunks := [⟨"c0", some ⟨"hello", none⟩, 20⟩, ⟨"c1", none, 20⟩] }

/-- A concrete short-audio environment (10 s, unsplit) whose single result
carries a word token with a comma inside its text. -/
def envComma : Env :=
  { envChunked with
      duration := 10
      wholeOutcome := some ⟨"a,b", some ⟨some [⟨"a,b", 0, 1⟩], none⟩⟩ }

/-- A concrete request for the `json` format with timestamps requested. -/
def reqJson : AsrParams :=
  { language := "en"
    pnc := "yes"
    timestamps := some "yes"
    beam_size := 1
    batch_size := 1
    response_format := "json"
    word_boosting := none }

/-- The `verbose_json` variant of `reqJson`, timestamps off. -/
def reqVerbose : AsrParams :=
  { reqJson with response_format := "verbose_json", timestamps := some "no" }

/-- The `vtt` variant of `reqJson`. -/
def reqVtt : AsrParams :=
  { reqJson with response_format := "vtt" }

/-- An unrecognized `response_format`. -/
def reqXml : AsrParams :=
  { reqJson with response_format := "xml", timestamps := some "no" }

theorem chunkLoop_success (t : Bool) (acc : LoopAcc) (chunks : List ChunkData)
    (h : ∀ c ∈ chunks, c.outcome.isSome) :
    chunkLoop t acc chunks =
      (⟨acc.texts ++ chunks.map chunkText,
        acc.words ++ tokensFrom (chunkWords t) acc.offset chunks,
        acc.segments ++ tokensFrom (chunkSegments t) acc.offset chunks,
        acc.allResults,
        acc.offset + durSum chunks,
        acc.invocations + chunks.length,
        acc.removed ++ chunks.map ChunkData.path⟩, true) := by
  induction chunks generalizing acc with
  | nil => simp [chunkLoop, tokensFrom, durSum]
  | cons c rest ih =>
    obtain ⟨r, hr⟩ := Option.isSome_iff_exists.mp (h c (List.mem_cons_self c rest))
    have hrest : ∀ x ∈ rest, x.outcome.isSome := fun x hx => h x (List.mem_cons_of_mem c hx)
    simp only [chunkLoop, hr]
    rw [ih _ hrest]
    simp [chunkWords, chunkSegments, chunkText, hr, tokensFrom, durSum,
      List.append_assoc, add_assoc, Nat.add_assoc, Nat.add_comm 1 rest.length]

theorem chunkLoop_append (t : Bool) (acc : LoopAcc) (xs ys : List ChunkData) :
    chunkLoop t acc (xs ++ ys) =
      (if (chunkLoop t acc xs).2 = true then chunkLoop t (chunkLoop t acc xs).1 ys
       else chunkLoop t acc xs) := by
  induction xs generalizing acc with
  | nil => simp [chunkLoop]
  | cons c rest ih =>
    cases hc : c.outcome with
    | none => simp [chunkLoop, hc]
    | some r =>
      simp only [List.cons_append, chunkLoop, hc]
      exact ih _

theorem offsetAt_zero (chunks : List ChunkData) : offsetAt chunks 0 = 0 := by
  simp [offsetAt]

theorem offsetAt_succ (chunks : List ChunkData) (i : Nat) (hi : i < chunks.length) :
    offsetAt chunks (i + 1) = offsetAt chunks i + (chunks.get ⟨i, hi⟩).duration := by
  induction chunks generalizing i with
  | nil => simp at hi
  | cons c rest ih =>
    cases i with
    | zero => simp [offsetAt]
    | succ n =>
      have hn : n < rest.length := by simpa using hi
      simp only [offsetAt, List.take_succ_cons, List.map_cons, List.sum_cons, List.get_cons_succ]
      have := ih n hn
      simp only [offsetAt] at this
      rw [this]
      ring_nf

theorem offsetAt_mono (chunks : List ChunkData) (hdur : ∀ c ∈ chunks, 0 ≤ c.duration)
    {i j : Nat} (hij : i ≤ j) : offsetAt chunks i ≤ offsetAt chunks j := by
  refine monotone_nat_of_le_succ (fun n => ?_) hij
  by_cases hn : n < chunks.length
  · rw [offsetAt_succ chunks n hn]
    have h0 := hdur _ (chunks.get_mem n hn)
    linarith
  · have hlen : chunks.length ≤ n := le_of_not_lt hn
    simp only [offsetAt, List.take_of_length_le hlen,
      List.take_of_length_le (hlen.trans (Nat.le_succ n)), le_refl]

theorem tokensFrom_eq_flatten (f : ChunkData → List TimedToken) (off : ℚ)
    (chunks : List ChunkData) :
    tokensFrom f off chunks =
      ((List.range chunks.length).map
        (fun i => (f (chunks.getD i dfltChunk)).map
          (shiftToken (off + offsetAt chunks i)))).flatten := by
  induction chunks generalizing off with
  | nil => simp [tokensFrom]
  | cons c rest ih =>
    simp only [tokensFrom, List.length_cons, List.range_succ_eq_map, List.map_cons,
      List.flatten_cons, List.map_map]
    congr 1
    · simp [offsetAt, List.getD_cons_zero]
    · rw [ih (off + c.duration)]
      congr 1
      apply List.map_congr_left
      intro i hi
      simp only [Function.comp_apply, List.getD_cons_succ]
      congr 2
      have : offsetAt (c :: rest) (i + 1) = c.duration + offsetAt rest i := by
        simp [offsetAt, List.take_succ_cons]
      rw [this]
      ring_nf

theorem chunkWords_dflt (t : Bool) : chunkWords t dfltChunk = [] := by
  simp [chunkWords, dfltChunk]

theorem indexed_lt_length {f : ChunkData → List TimedToken} {chunks : List ChunkData}
    {i : Nat} {w : TimedToken}
    (hne : w ∈ (f (chunks.getD i dfltChunk)).map (shiftToken (offsetAt chunks i)))
    (hdflt : f dfltChunk = []) : i < chunks.length := by
  by_contra hi
  rw [List.getD_eq_default _ _ (le_of_not_lt hi), hdflt] at hne
  simp at hne

/-- Claim C3: for a multi-chunk request with timestamps enabled whose chunk
invocations all succeed, the reconciled global timelines are exactly the
concatenation, in chunk order, of each chunk's tokens shifted by the sum of
the measured durations of the preceding chunks (words and segments alike,
never reordered within a chunk), and — provided each chunk's local word
start times lie within `[0, duration]` and durations are nonnegative — the
global word start times are non-decreasing across chunk boundaries. -/
theorem C3_timestamp_reconciliation (chunks : List ChunkData)
    (hsucc : ∀ c ∈ chunks, c.outcome.isSome)
    (hdur : ∀ c ∈ chunks, 0 ≤ c.duration)
    (hbound : ∀ c ∈ chunks, ∀ w ∈ chunkWords true c, 0 ≤ w.start ∧ w.start ≤ c.duration) :
    ((chunkLoop true initAcc chunks).1.words = claimGlobal (chunkWords true) chunks ∧
     (chunkLoop true initAcc chunks).1.segments = claimGlobal (chunkSegments true) chunks) ∧
    (∀ i j, i < j →
      ∀ w ∈ indexedShifted (chunkWords true) chunks i,
      ∀ v ∈ indexedShifted (chunkWords true) chunks j,
        w.start ≤ v.start) := by
  constructor
  · rw [chunkLoop_success true initAcc chunks hsucc]
    constructor
    · show initAcc.words ++ tokensFrom (chunkWords true) initAcc.offset chunks = _
      rw [tokensFrom_eq_flatten]
      simp only [initAcc, List.nil_append, zero_add, claimGlobal, indexedShifted]
      rfl
    · show initAcc.segments ++ tokensFrom (chunkSegments true) initAcc.offset chunks = _
      rw [tokensFrom_eq_flatten]
      simp only [initAcc, List.nil_append, zero_add, claimGlobal, indexedShifted]
      rfl
  · intro i j hij w hw v hv
    simp only [indexedShifted] at hw hv
    have hi : i < chunks.length := indexed_lt_length hw (chunkWords_dflt true)
    have hj : j < chunks.length := indexed_lt_length hv (chunkWords_dflt true)
    obtain ⟨lw, hlw, rfl⟩ := List.mem_map.mp hw
    obtain ⟨lv, hlv, rfl⟩ := List.mem_map.mp hv
    rw [List.getD_eq_getElem _ _ hi] at hlw
    rw [List.getD_eq_getElem _ _ hj] at hlv
    have hmemi : chunks.get ⟨i, hi⟩ ∈ chunks := chunks.get_mem i hi
    have hmemj : chunks.get ⟨j, hj⟩ ∈ chunks := chunks.get_mem j hj
    have hbi := hbound _ hmemi lw hlw
    have hbj := hbound _ hmemj lv hlv
    have hstep : offsetAt chunks (i + 1) = offsetAt chunks i + (chunks.get ⟨i, hi⟩).duration :=
      offsetAt_succ chunks i hi
    have hmono : offsetAt chunks (i + 1) ≤ offsetAt chunks j :=
      offsetAt_mono chunks hdur hij
    simp only [shiftToken]
    have h1 : lw.start + offsetAt chunks i ≤ offsetAt chunks (i + 1) := by
      rw [hstep]; linarith [hbi.2]
    have h2 : offsetAt chunks j ≤ lv.start + offsetAt chunks j := by
      linarith [hbj.1]
    linarith

/-- Witness for C3: the two-chunk environment `envChunked`, whose hypotheses
hold by computation and to which the theorem applies. -/
theorem C3_timestamp_reconciliation_witness :
    (∀ c ∈ envChunked.chunks, c.outcome.isSome) ∧
    (((chunkLoop true initAcc envChunked.chunks).1.words =
        claimGlobal (chunkWords true) envChunked.chunks ∧
      (chunkLoop true initAcc envChunked.chunks).1.segments =
        claimGlobal (chunkSegments true) envChunked.chunks) ∧
     (∀ i j, i < j →
       ∀ w ∈ indexedShifted (chunkWords true) envChunked.chunks i,
       ∀ v ∈ indexedShifted (chunkWords true) envChunked.chunks j,
         w.start ≤ v.start)) :=
  ⟨by decide,
   C3_timestamp_reconciliation envChunked.chunks (by decide) (by decide) (by decide)⟩

/-- Claim C8: when validation passes and every capability call succeeds,
a request whose measured duration is at most the chunk threshold performs
exactly one inference invocation, and a request whose duration exceeds the
threshold performs exactly as many invocations as the chunking collaborator
returned chunks. -/
theorem C8_invocation_count (env : Env) (p : AsrParams)
    (hlang : p.language ∈ SUPPORTED_LANGUAGES)
    (hriff : env.riffOk = true)
    (hflash : ¬(timestampsFlag p.response_format p.timestamps = true ∧ env.isFlashModel = false))
    (hchunks : ∀ c ∈ env.chunks, c.outcome.isSome)
    (hwhole : env.wholeOutcome.isSome) :
    (process_asr_request env p).invocations =
      if env.duration > env.maxChunkDurationSec then env.chunks.length else 1 := by
  obtain ⟨r, hr⟩ := Option.isSome_iff_exists.mp hwhole
  simp only [process_asr_request]
  rw [if_neg (not_not_intro hlang)]
  rw [if_neg (by simp [hriff])]
  rw [if_neg hflash]
  by_cases hd : env.duration > env.maxChunkDurationSec
  · rw [if_pos hd, if_pos hd]
    rw [chunkLoop_success _ _ _ hchunks]
    simp [initAcc]
  · rw [if_neg hd, if_neg hd, hr]

/-- Witness for C8: the chunked environment `envChunked` with request
`reqJson`; all hypotheses hold by computation. -/
theorem C8_invocation_count_witness :
    (reqJson.language ∈ SUPPORTED_LANGUAGES ∧ envChunked.riffOk = true ∧
      (∀ c ∈ envChunked.chunks, c.outcome.isSome) ∧ envChunked.wholeOutcome.isSome) ∧
    ((process_asr_request envChunked reqJson).invocations =
      if envChunked.duration > envChunked.maxChunkDurationSec then
        envChunked.chunks.length
      else 1) :=
  ⟨by decide,
   C8_invocation_count envChunked reqJson (by decide) (by decide) (by decide)
     (by decide) (by decide)⟩

theorem formatOutput_unknown (fmt : String) (tsFlag : Bool) (acc : LoopAcc)
    (h1 : fmt ≠ "text") (h2 : fmt ≠ "json") (h3 : fmt ≠ "verbose_json")
    (h4 : fmt ≠ "srt") (h5 : fmt ≠ "vtt") :
    formatOutput fmt tsFlag acc = .ok .pyNone := by
  simp [formatOutput, h1, h2, h3, h4, h5]

/-- Claim C10: a request whose `response_format` matches none of the five
known formats still runs the whole pipeline (the usual number of inference
invocations) and then returns `None`, serialized by the endpoint as a JSON
null response body rather than rejected with a 400 validation error. -/
theorem C10_unknown_format_null (env : Env) (p : AsrParams)
    (hfmt : p.response_format ∉ (["text", "json", "verbose_json", "srt", "vtt"] : List String))
    (hlang : p.language ∈ SUPPORTED_LANGUAGES)
    (hriff : env.riffOk = true)
    (hflash : ¬(timestampsFlag p.response_format p.timestamps = true ∧ env.isFlashModel = false))
    (hchunks : ∀ c ∈ env.chunks, c.outcome.isSome)
    (hwhole : env.wholeOutcome.isSome) :
    (process_asr_request env p).ret = .ok .pyNone ∧
    asrEndpointResult (process_asr_request env p).ret = .ok (.jsonOf .pyNone) ∧
    (process_asr_request env p).invocations =
      if env.duration > env.maxChunkDurationSec then env.chunks.length else 1 := by
  simp only [List.mem_cons, List.mem_singleton, not_or] at hfmt
  obtain ⟨h1, h2, h3, h4, h5, -⟩ := hfmt
  obtain ⟨r, hr⟩ := Option.isSome_iff_exists.mp hwhole
  have hret : (process_asr_request env p).ret = .ok .pyNone ∧
      (process_asr_request env p).invocations =
        if env.duration > env.maxChunkDurationSec then env.chunks.length else 1 := by
    simp only [process_asr_request]
    rw [if_neg (not_not_intro hlang)]
    rw [if_neg (by simp [hriff])]
    rw [if_neg hflash]
    by_cases hd : env.duration > env.maxChunkDurationSec
    · rw [if_pos hd, if_pos hd]
      rw [chunkLoop_success _ _ _ hchunks]
      simp [initAcc, formatOutput_unknown _ _ _ h1 h2 h3 h4 h5]
    · rw [if_neg hd, if_neg hd, hr]
      simp [formatOutput_unknown _ _ _ h1 h2 h3 h4 h5]
  exact ⟨hret.1, by rw [hret.1]; rfl, hret.2⟩

/-- Witness for C10: the chunked environment with the unrecognized format
`xml`; all hypotheses hold by computation. -/
theorem C10_unknown_format_null_witness :
    (reqXml.response_format ∉ (["text", "json", "verbose_json", "srt", "vtt"] : List String) ∧
      reqXml.language ∈ SUPPORTED_LANGUAGES) ∧
    ((process_asr_request envChunked reqXml).ret = .ok .pyNone ∧
     asrEndpointResult (process_asr_request envChunked reqXml).ret = .ok (.jsonOf .pyNone) ∧
     (process_asr_request envChunked reqXml).invocations =
       if envChunked.duration > envChunked.maxChunkDurationSec then
         envChunked.chunks.length
       else 1) :=
  ⟨by decide,
   C10_unknown_format_null envChunked reqXml (by decide) (by decide) (by decide)
     (by decide) (by decide) (by decide)⟩

/-- Claim C7: the effective timestamp flag is disabled for `text` regardless
of the request's timestamps field, enabled for `srt` and `vtt` regardless of
it, and otherwise enabled exactly when the field is the literal `'yes'`
(any other value, absent included, disables it). -/
theorem C7_timestamp_policy (fmt : String) (ts : Option String) :
    timestampsFlag fmt ts = true ↔
      fmt ≠ "text" ∧ (fmt = "srt" ∨ fmt = "vtt" ∨ ts = some "yes") := by
  by_cases h1 : fmt = "text" <;>
    by_cases h2 : fmt = "srt" <;>
      by_cases h3 : fmt = "vtt" <;>
        simp [timestampsFlag, h1, h2, h3]

/-- Counterexample to claim C1: with default beam size 1, a first request
with `beam_size = 5` installs an active beam size of 5; a second request
with the same `beam_size = 5` then reconfigures again — it is not a no-op —
because line 85 compares against the static `settings.beam_size`, which is
never updated.  The spec's `ensure` would no-op on the second request. -/
theorem C1_counterexample :
    (serveBeam 1 1 5).1 = 5 ∧
    (serveBeam 1 (serveBeam 1 1 5).1 5).2 = true ∧
    (specEnsure (serveBeam 1 1 5).1 5).2 = false := by decide

/-- Claim C1 (amended): the reconfiguration step reconfigures exactly when
the request's `beam_size` differs from the static configured default
`settings.beam_size`, independently of the currently active value, and since
the comparison value is never updated a subsequent request with the same
non-default `beam_size` reconfigures again instead of no-opping. -/
theorem C1_beam_reconfig_vs_default (d a r : Int) :
    ((serveBeam d a r).2 = true ↔ r ≠ d) ∧
    (∀ a2 : Int, (serveBeam d a r).2 = (serveBeam d a2 r).2) ∧
    (r ≠ d → (serveBeam d (serveBeam d a r).1 r).2 = true) := by
  refine ⟨?_, ?_, ?_⟩
  · by_cases h : r = d <;> simp [serveBeam, h]
  · intro a2
    by_cases h : r = d <;> simp [serveBeam, h]
  · intro h
    simp [serveBeam, h]

/-- Witness for C1 (amended), at default 1, active 1, request 5: the repeat
request with the same non-default beam size reconfigures again. -/
theorem C1_beam_reconfig_vs_default_witness :
    (serveBeam 1 (serveBeam 1 1 5).1 5).2 = true :=
  (C1_beam_reconfig_vs_default 1 1 5).2.2 (by decide)

/-- Claim C4 fails on the code: both `transcriber.transcribe(...)` call
sites pass the keyword argument `word_boosting`, but
`CanaryService.transcribe`'s signature does not accept it (and has no
`**kwargs`), so in Python every inference invocation raises `TypeError`
before reaching the model — the call never completes even when the
capability itself would succeed, and the word-boost list is never
forwarded. -/
theorem C4_transcribe_call_type_error :
    kwargsAccepted canaryTranscribeParams endpointTranscribeKwargs = false ∧
    "word_boosting" ∈ endpointTranscribeKwargs ∧
    "word_boosting" ∉ canaryTranscribeParams := by decide

/-- Claim C6 fails on the code: for a chunked request (duration above the
threshold) with `response_format = verbose_json`, the loop performs one
invocation per chunk but never extends `all_results` (only the unchunked
branch does, line 162), so the response is the empty list instead of one raw
record per invocation.  The unchunked case, by contrast, does return its
single record. -/
theorem C6_verbose_json_chunked_empty :
    (process_asr_request envChunked reqVerbose).invocations = 2 ∧
    (process_asr_request envChunked reqVerbose).ret = .ok (.verboseList []) ∧
    (process_asr_request { envChunked with duration := 10 } reqVerbose).ret =
      .ok (.verboseList [⟨"one", none⟩]) := by decide

/-- Counterexample to claim C5: a two-chunk request whose second invocation
fails.  The second chunk's scratch file `c1` is not deleted even though its
inference call completed (by raising), contradicting "deleted ... whether
that call succeeds or fails" and "all not-yet-consumed chunk scratch assets
are still cleaned up"; only the first chunk's file and the top-level audio
file are removed. -/
theorem C5_counterexample :
    (process_asr_request envFail reqJson).ret = .error .capability ∧
    (process_asr_request envFail reqJson).invocations = 2 ∧
    (process_asr_request envFail reqJson).removedChunks = ["c0"] ∧
    "c1" ∉ (process_asr_request envFail reqJson).removedChunks ∧
    (process_asr_request envFail reqJson).audioRemoved = true := by decide

/-- Claim C5 (amended): a chunk's scratch file is deleted only after its
invocation and timestamp processing complete successfully.  When an
invocation fails mid-loop, the request aborts with the propagated error:
exactly the successfully processed prefix's files have been removed, the
failing chunk's file is not removed (if its path is distinct), none of the
later chunks' files are removed, and only the top-level audio file is
cleaned up by the `finally` block. -/
theorem C5_chunk_cleanup_on_failure (env : Env) (p : AsrParams)
    (good : List ChunkData) (bad : ChunkData) (rest : List ChunkData)
    (hsplit : env.chunks = good ++ bad :: rest)
    (hgood : ∀ c ∈ good, c.outcome.isSome)
    (hbad : bad.outcome = none)
    (hlang : p.language ∈ SUPPORTED_LANGUAGES)
    (hriff : env.riffOk = true)
    (hflash : ¬(timestampsFlag p.response_format p.timestamps = true ∧ env.isFlashModel = false))
    (hd : env.duration > env.maxChunkDurationSec) :
    (process_asr_request env p).ret = .error .capability ∧
    (process_asr_request env p).removedChunks = good.map ChunkData.path ∧
    (process_asr_request env p).invocations = good.length + 1 ∧
    (process_asr_request env p).audioRemoved = true ∧
    (bad.path ∉ good.map ChunkData.path →
      bad.path ∉ (process_asr_request env p).removedChunks) := by
  simp only [process_asr_request]
  rw [if_neg (not_not_intro hlang)]
  rw [if_neg (by simp [hriff])]
  rw [if_neg hflash]
  rw [if_pos hd, hsplit]
  rw [chunkLoop_append, chunkLoop_success _ _ _ hgood]
  simp [chunkLoop, hbad, initAcc]

/-- Witness for C5 (amended) at `envFail`: one successful chunk, then a
failing one, no later chunks. -/
theorem C5_chunk_cleanup_on_failure_witness :
    (envFail.chunks =
      [(⟨"c0", some ⟨"hello", none⟩, 20⟩ : ChunkData)] ++ (⟨"c1", none, 20⟩ : ChunkData) :: []) ∧
    ((process_asr_request envFail reqJson).ret = .error .capability ∧
     (process_asr_request envFail reqJson).removedChunks =
       [(⟨"c0", some ⟨"hello", none⟩, 20⟩ : ChunkData)].map ChunkData.path ∧
     (process_asr_request envFail reqJson).invocations =
       [(⟨"c0", some ⟨"hello", none⟩, 20⟩ : ChunkData)].length + 1 ∧
     (process_asr_request envFail reqJson).audioRemoved = true ∧
     ((⟨"c1", none, 20⟩ : ChunkData).path ∉
         [(⟨"c0", some ⟨"hello", none⟩, 20⟩ : ChunkData)].map ChunkData.path →
       (⟨"c1", none, 20⟩ : ChunkData).path ∉
         (process_asr_request envFail reqJson).removedChunks)) :=
  ⟨by decide,
   C5_chunk_cleanup_on_failure envFail reqJson
     [⟨"c0", some ⟨"hello", none⟩, 20⟩] ⟨"c1", none, 20⟩ []
     (by decide) (by decide) (by decide) (by decide) (by decide) (by decide) (by decide)⟩

theorem pyReplaceCommaDot_no_comma (s : String) : ',' ∉ (pyReplaceCommaDot s).data := by
  intro h
  obtain ⟨c, hc, he⟩ := List.mem_map.mp h
  by_cases h1 : c = ',' <;> simp [h1] at he

theorem mem_append_data {c : Char} {a b : String} :
    c ∈ (a ++ b).data ↔ c ∈ a.data ∨ c ∈ b.data := by
  rw [String.data_append]
  exact List.mem_append

/-- Counterexample to claim C9: a successful `vtt` request whose transcript
word is the literal `a,b`.  Line 190 applies `replace(",", ".")` to the
whole SRT payload, so the comma inside the cue text is rewritten too; the
output is not the SRT payload with commas replaced only inside timestamps. -/
theorem C9_counterexample :
    (process_asr_request envComma reqVtt).ret =
      .ok (.pyStr "WEBVTT\n\n1\n00:00:00.000 --> 00:00:01.000\na.b\n\n") ∧
    vttSpecRender [⟨"a,b", 0, 1⟩] = "WEBVTT\n\n1\n00:00:00.000 --> 00:00:01.000\na,b\n\n" ∧
    (process_asr_request envComma reqVtt).ret ≠
      .ok (.pyStr (vttSpecRender [⟨"a,b", 0, 1⟩])) := by decide

/-- Claim C9 (amended): the `vtt` output equals the `srt` output prefixed
with the literal `WEBVTT` header and a blank line, with every comma in the
whole SRT payload replaced by a period — in timestamps and cue text alike —
so the resulting payload contains no comma at all. -/
theorem C9_vtt_global_comma_replacement (acc : LoopAcc) (srt : String)
    (hsrt : formatOutput "srt" true acc = .ok (.pyStr srt)) :
    formatOutput "vtt" true acc = .ok (.pyStr ("WEBVTT\n\n" ++ pyReplaceCommaDot srt)) ∧
    ',' ∉ ("WEBVTT\n\n" ++ pyReplaceCommaDot srt).data := by
  have hw : acc.words ≠ [] := by
    intro hnil
    simp [formatOutput, hnil] at hsrt
  have hsrtval : srt = generate_srt_from_words acc.words := by
    simp [formatOutput, hw] at hsrt
    exact hsrt.symm
  refine ⟨?_, ?_⟩
  · simp [formatOutput, hw, hsrtval]
  · intro hmem
    rcases mem_append_data.mp hmem with h | h
    · revert h
      decide
    · exact pyReplaceCommaDot_no_comma _ h

/-- Witness for C9 (amended) at a one-word loop state. -/
theorem C9_vtt_global_comma_replacement_witness :
    (formatOutput "srt" true ⟨["hi"], [⟨"hi", 0, 1⟩], [], [], 0, 1, []⟩ =
      .ok (.pyStr "1\n00:00:00,000 --> 00:00:01,000\nhi\n\n")) ∧
    (formatOutput "vtt" true ⟨["hi"], [⟨"hi", 0, 1⟩], [], [], 0, 1, []⟩ =
      .ok (.pyStr ("WEBVTT\n\n" ++ pyReplaceCommaDot "1\n00:00:00,000 --> 00:00:01,000\nhi\n\n")) ∧
     ',' ∉ ("WEBVTT\n\n" ++ pyReplaceCommaDot "1\n00:00:00,000 --> 00:00:01,000\nhi\n\n").data) :=
  ⟨by decide, C9_vtt_global_comma_replacement _ _ (by decide)⟩
